import Mathlib

/-!
Shallow embedding of the PhotonIQ solar-optimizer backend
(`src/backend/server.js`) for verification of its specification.

The backend keeps an in-memory latest reading, a weather cache and a
prediction cache, ingests newline-delimited JSON from a serial device,
fetches weather on a schedule, recomputes a rule-based forecast, and
serves read-only HTTP endpoints.  JS numbers are modelled as `ℚ`,
JSON values as an inductive `JValue`, and the pieces of process state
as an explicit `ServerState` record threaded through the handlers.
-/

namespace PhotonIQ

/-- The `{` character (written by code point to keep string literals
free of braces). -/
def braceChar : Char := Char.ofNat 123

/-- JS `String.prototype.trim`: strip whitespace from both ends,
modelled on the character list. -/
def trimChars (cs : List Char) : List Char :=
  ((cs.dropWhile Char.isWhitespace).reverse.dropWhile Char.isWhitespace).reverse

/-- JS `line.trim()`. -/
def jsTrim (s : String) : String := String.mk (trimChars s.data)

/-- server.js line 80: `line.startsWith('\x7b')` applied to the trimmed
line — true exactly when the first non-whitespace character is `{`. -/
def beginsWithBrace (s : String) : Bool :=
  match (jsTrim s).data with
  | c :: _ => c == braceChar
  | [] => false

/-- JSON values as produced by `JSON.parse`: objects are the field lists
in source order; `JSON.parse` collapses duplicate keys (last wins), so
objects coming from it have unique keys.  JS `undefined` and `null` are
conflated as `jnull` (both falsy, which is all the backend ever tests). -/
inductive JValue : Type where
  | jnull : JValue
  | jbool : Bool → JValue
  | jnum : ℚ → JValue
  | jstr : String → JValue
  | jarr : List JValue → JValue
  | jobj : List (String × JValue) → JValue
deriving Inhabited

/-- JS property read `obj[k]` on an object's field list. -/
def jsGet (fields : List (String × JValue)) (k : String) : Option JValue :=
  (fields.find? (fun p => p.1 == k)).map (fun p => p.2)

/-- JS truthiness of a value. -/
def truthy : JValue → Bool
  | .jnull => false
  | .jbool b => b
  | .jnum q => q != 0
  | .jstr s => s != ""
  | .jarr _ => true
  | .jobj _ => true

/-- JS property read defaulting to `undefined` (modelled `jnull`). -/
def jsGetD (fields : List (String × JValue)) (k : String) : JValue :=
  (jsGet fields k).getD .jnull

/-- JS `a || b`. -/
def jsOr (a b : JValue) : JValue := if truthy a then a else b

/-- JS property write `obj.k = v`: overwrite in place when the key is
present (enumeration order kept), append at the end otherwise. -/
def setField (fields : List (String × JValue)) (k : String) (v : JValue) :
    List (String × JValue) :=
  if (fields.find? (fun p => p.1 == k)).isSome then
    fields.map (fun p => if p.1 == k then (k, v) else p)
  else fields ++ [(k, v)]

/-- Weather cache shape (server.js `weatherCache`); every field is
optional because the cache starts as the empty object and a snapshot
built from a response with missing leaves carries `undefined` there. -/
structure WeatherSnapshot : Type where
  temp : Option ℚ
  humidity : Option ℚ
  clouds : Option ℚ
  description : Option String
  windSpeed : Option ℚ
  timestamp : Option ℚ
deriving DecidableEq, Inhabited

/-- One entry of the six-hour forecast list built by `runPrediction`. -/
structure ForecastEntry : Type where
  hour : ℕ
  label : String
  predicted : ℚ
deriving DecidableEq, Inhabited

/-- Prediction cache shape (server.js `predictionCache`); `peak_hour`
and `timestamp` are optional because the initial object lacks them. -/
structure Prediction : Type where
  predicted_power : ℚ
  confidence : ℤ
  peak_hour : Option ℕ
  forecast : List ForecastEntry
  timestamp : Option ℚ
deriving DecidableEq, Inhabited

/-- The mutable process state of server.js: the latest-reading cache,
the weather cache, the prediction cache, and the Firebase history list
(`solarData/history`, modelled as the list of pushed values in push
order). -/
structure ServerState : Type where
  latestReading : JValue
  weatherCache : WeatherSnapshot
  predictionCache : Prediction
  history : List JValue

/-- server.js lines 49-55: the module-level initializer of
`latestReading`; `t0` is the value of `Date.now()` at load time. -/
def initialReadingFields (t0 : ℚ) : List (String × JValue) :=
  [("voltage", .jnum 0), ("current", .jnum 0), ("power", .jnum 0),
   ("angleH", .jnum 90), ("angleV", .jnum 90),
   ("light", .jnum 0), ("dustAlert", .jbool false), ("dustRaw", .jnum 0),
   ("timestamp", .jnum t0)]

/-- server.js line 56: `weatherCache = {}`. -/
def emptyWeather : WeatherSnapshot :=
  { temp := none, humidity := none, clouds := none,
    description := none, windSpeed := none, timestamp := none }

/-- server.js line 57: the initial `predictionCache` object. -/
def initialPrediction : Prediction :=
  { predicted_power := 0, confidence := 0, peak_hour := none,
    forecast := [], timestamp := none }

/-- The process state right after the module-level initializers run,
before any ingestion, fetch or recomputation. -/
def initialState (t0 : ℚ) : ServerState :=
  { latestReading := .jobj (initialReadingFields t0),
    weatherCache := emptyWeather,
    predictionCache := initialPrediction,
    history := [] }

/-- Classification a serial line receives in the `parser.on('data')`
handler (server.js lines 78-104): skipped as non-JSON, dropped as
malformed by the `catch`, logged as a device status/error message, or
accepted as a reading (with the ingestion-side timestamp stamped in). -/
inductive ParseResult : Type where
  | notJson : ParseResult
  | malformed : ParseResult
  | deviceMessage : JValue → ParseResult
  | reading : List (String × JValue) → ParseResult

/-- The pure classification part of the `parser.on('data')` handler.
`decoded` stands for the result of `JSON.parse(line)`: `none` when it
throws, `some fields` for the decoded object (a line whose trimmed form
starts with a brace can only decode to an object).  `now` is
`Date.now()` at invocation. -/
def parse (line : String) (decoded : Option (List (String × JValue)))
    (now : ℚ) : ParseResult :=
  if beginsWithBrace line then
    match decoded with
    | none => .malformed
    | some fields =>
      let msg := jsOr (jsGetD fields "error") (jsGetD fields "status")
      if truthy msg then .deviceMessage msg
      else .reading (setField fields "timestamp" (.jnum now))
  else .notJson

/-- The state effect of the `parser.on('data')` handler: an accepted
reading replaces `latestReading` (Firebase `solarData/live` set) and is
appended to the history (Firebase `solarData/history` push); every
other classification leaves the state untouched. -/
def ingestLine (s : ServerState) (line : String)
    (decoded : Option (List (String × JValue))) (now : ℚ) : ServerState :=
  match parse line decoded now with
  | .reading fields =>
      { s with latestReading := .jobj fields,
               history := s.history ++ [.jobj fields] }
  | _ => s

/-- GET `/api/live` (server.js lines 194-196): returns the cached
latest reading. -/
def getLive (s : ServerState) : JValue := s.latestReading

/-- GET `/api/weather`: returns the cached weather snapshot. -/
def getWeather (s : ServerState) : WeatherSnapshot := s.weatherCache

/-- The `main` object of an OpenWeather response; leaves optional. -/
structure WMain : Type where
  temp : Option ℚ
  humidity : Option ℚ
deriving DecidableEq, Inhabited

/-- The `clouds` object of an OpenWeather response. -/
structure WClouds : Type where
  all : Option ℚ
deriving DecidableEq, Inhabited

/-- One entry of the `weather` array of an OpenWeather response. -/
structure WItem : Type where
  description : Option String
deriving DecidableEq, Inhabited

/-- The `wind` object of an OpenWeather response. -/
structure WWind : Type where
  speed : Option ℚ
deriving DecidableEq, Inhabited

/-- An OpenWeather response body: each container may be missing, in
which case the chained property access in `fetchWeather` throws. -/
structure WResp : Type where
  main : Option WMain
  clouds : Option WClouds
  weather : List WItem
  wind : Option WWind
deriving DecidableEq, Inhabited

/-- The snapshot construction inside the `try` of server.js
`fetchWeather` (lines 124-131): chained accesses `data.main.temp`,
`data.clouds.all`, `data.weather[0].description`, `data.wind.speed`.
Accessing a property of a missing container (or of `weather[0]` when
the array is empty) throws, modelled as `none`; a missing leaf just
yields `undefined` inside the snapshot. -/
def buildSnapshot (d : WResp) (now : ℚ) : Option WeatherSnapshot := do
  let m ← d.main
  let c ← d.clouds
  let w0 ← d.weather.head?
  let wd ← d.wind
  pure { temp := m.temp, humidity := m.humidity, clouds := c.all,
         description := w0.description, windSpeed := wd.speed,
         timestamp := some now }

/-- server.js `fetchWeather` (lines 115-140): `resp` is the outcome of
the axios GET (`Except.error` for a network failure or non-2xx status,
which axios raises as an exception).  Any throw inside the `try` —
either the failed request or a broken chained access on a malformed
payload — lands in the `catch`, which only logs, so the state is
returned unchanged. -/
def fetchWeather (resp : Except String WResp) (s : ServerState)
    (now : ℚ) : ServerState :=
  match resp with
  | .error _ => s
  | .ok d =>
    match buildSnapshot d now with
    | none => s
    | some w => { s with weatherCache := w }

/-- server.js lines 150-155: the 24-entry hourly irradiance table. -/
def hourlyFactor : List ℚ :=
  [0, 0, 0, 0, 0, 0.05,
   0.1, 0.2, 0.35, 0.55, 0.75, 0.9,
   1.0, 0.95, 0.85, 0.7, 0.5, 0.3,
   0.1, 0.05, 0, 0, 0, 0]

/-- server.js line 157: `cloudFactor = 1 - (clouds / 100) * 0.7`. -/
def cloudFactor (clouds : ℚ) : ℚ := 1 - clouds / 100 * 0.7

/-- JS `x.toFixed(3)` followed by `parseFloat`: round to the nearest
multiple of 1/1000, ties toward positive infinity (the `toFixed`
tie-break picks the larger candidate), i.e. `⌊x·1000 + 1/2⌋ / 1000`. -/
def round3 (x : ℚ) : ℚ := (round (x * 1000) : ℚ) / 1000

/-- server.js `runPrediction` (lines 146-187) as a function of the
values it reads from the caches: `basePower = latestReading.power || 0`,
`clouds = weatherCache.clouds || 0`, `hour = new Date().getHours()`,
`now = Date.now()`.  Builds the six-entry forecast, the next-hour
headline (same formula without the 1.1 tracking boost), the confidence
and the fixed peak hour. -/
def runPrediction (basePower clouds : ℚ) (hour : ℕ) (now : ℚ) :
    Prediction :=
  let cf := cloudFactor clouds
  let forecast := (List.range 6).map (fun j =>
    let futureHour := (hour + (j + 1)) % 24
    let predicted := basePower * hourlyFactor.getD futureHour 0 * cf * 1.1
    { hour := futureHour,
      label := toString futureHour ++ ":00",
      predicted := max 0 (round3 predicted) : ForecastEntry })
  let nextHour := (hour + 1) % 24
  let nextPower := basePower * hourlyFactor.getD nextHour 0 * cf
  { predicted_power := max 0 (round3 nextPower),
    confidence := round (cf * 90),
    peak_hour := some 12,
    forecast := forecast,
    timestamp := some now }

/-- JS `x || 0` on a property read that is then used numerically: a
number passes through (0 stays 0), an absent property gives 0.  The
device protocol only puts numbers in these fields; a non-numeric value
would go through JS ToNumber coercion, which is outside this model. -/
def numOrZero : Option JValue → ℚ
  | some (.jnum q) => q
  | _ => 0

/-- Property read on an arbitrary JSON value: only objects have
fields. -/
def jvField : JValue → String → Option JValue
  | .jobj fs, k => jsGet fs k
  | _, _ => none

/-- `runPrediction` wired to the caches the way server.js reads them:
`latestReading.power || 0` and `weatherCache.clouds || 0`. -/
def runPredictionOnState (s : ServerState) (hour : ℕ) (now : ℚ) :
    ServerState :=
  let p := runPrediction (numOrZero (jvField s.latestReading "power"))
    (s.weatherCache.clouds.getD 0) hour now
  { s with predictionCache := p }

/-- The timestamp a history entry is compared by in the endpoint's
`sort((a, b) => a.timestamp - b.timestamp)`. -/
def tsOf (v : JValue) : ℚ := numOrZero (jvField v "timestamp")

/-- Comparison relation of the history sort: non-decreasing stamped
timestamps. -/
def tsLe (a b : JValue) : Prop := tsOf a ≤ tsOf b

instance : DecidableRel tsLe := fun a b =>
  inferInstanceAs (Decidable (tsOf a ≤ tsOf b))

instance : IsTotal JValue tsLe :=
  ⟨fun a b => le_total (tsOf a) (tsOf b)⟩

instance : IsTrans JValue tsLe :=
  ⟨fun _ _ _ h1 h2 => le_trans h1 h2⟩

/-- The Firebase query `orderByChild('timestamp').limitToLast(n)`: the
last `n` entries of the history in timestamp order. -/
def sinkQuery (hist : List JValue) (n : ℕ) : List JValue :=
  let sorted := List.insertionSort tsLe hist
  sorted.drop (sorted.length - n)

/-- Digits-to-number accumulator of the `parseInt` model. -/
def natFromDigits (cs : List Char) : ℕ :=
  cs.foldl (fun a c => a * 10 + (c.toNat - 48)) 0

/-- JS `parseInt(s)`: leading whitespace skipped, optional sign, then
the maximal digit prefix; `NaN` (here `none`) when no digit follows. -/
def jsParseInt (s : String) : Option ℤ :=
  let core : List Char → Option ℤ := fun l =>
    let ds := l.takeWhile (fun c => c.isDigit)
    if ds.isEmpty then none else some (natFromDigits ds)
  match (s.data.dropWhile Char.isWhitespace) with
  | '-' :: rest => (core rest).map (fun n => -n)
  | '+' :: rest => core rest
  | l => core l

/-- server.js line 211: `parseInt(req.query.limit) || 50` — 50 when the
parameter is absent, unparsable, or parses to 0. -/
def appliedLimit (q : Option String) : ℤ :=
  match q with
  | none => 50
  | some s =>
    match jsParseInt s with
    | none => 50
    | some n => if n = 0 then 50 else n

/-- The history read of GET `/api/history` for a (non-negative) limit:
the sink query result, then `Object.values(...).sort` by timestamp. -/
def getHistory (hist : List JValue) (limit : ℕ) : List JValue :=
  List.insertionSort tsLe (sinkQuery hist limit)

/-- GET `/api/history` (server.js lines 209-224) as a function of the
raw `limit` query parameter: a negative applied limit makes Firebase's
`limitToLast` throw, which the `catch` turns into a 500 error
response. -/
def historyEndpoint (hist : List JValue) (q : Option String) :
    Except String (List JValue) :=
  let limit := appliedLimit q
  if limit < 0 then .error "limitToLast expects a positive limit"
  else .ok (getHistory hist limit.toNat)

/-! ### Helper lemmas -/

theorem jsGet_append_ne (fields : List (String × JValue)) (k k' : String)
    (v : JValue) (h : k' ≠ k) :
    jsGet (fields ++ [(k, v)]) k' = jsGet fields k' := by
  unfold jsGet
  rw [List.find?_append]
  have hk : ((k, v).1 == k') = false := by
    simp only [beq_eq_false_iff_ne, ne_eq]
    exact fun hkk => h (hkk.symm)
  cases hf : fields.find? (fun p => p.1 == k') with
  | none => simp [List.find?, hk]
  | some p => simp

theorem jsGet_append_self (fields : List (String × JValue)) (k : String)
    (v : JValue) (h : jsGet fields k = none) :
    jsGet (fields ++ [(k, v)]) k = some v := by
  unfold jsGet at h ⊢
  rw [List.find?_append]
  have hf : fields.find? (fun p => p.1 == k) = none := by
    cases hf : fields.find? (fun p => p.1 == k) with
    | none => rfl
    | some p => rw [hf] at h; simp at h
  simp [hf, List.find?]

theorem setField_of_absent (fields : List (String × JValue)) (k : String)
    (v : JValue) (h : jsGet fields k = none) :
    setField fields k v = fields ++ [(k, v)] := by
  unfold setField
  have hf : fields.find? (fun p => p.1 == k) = none := by
    unfold jsGet at h
    cases hf : fields.find? (fun p => p.1 == k) with
    | none => rfl
    | some p => rw [hf] at h; simp at h
  simp [hf]

/-! ### Claims about the ingestion path -/

/-- Claim C9: any line whose trimmed form does not begin with `{` is
classified `notJson` by the parser, and routing it through the
ingestion handler leaves the whole server state (latest reading and
history included) unchanged. -/
theorem notJson_skips_line (s : ServerState) (line : String)
    (decoded : Option (List (String × JValue))) (now : ℚ)
    (h : beginsWithBrace line = false) :
    parse line decoded now = .notJson ∧ ingestLine s line decoded now = s := by
  have hp : parse line decoded now = .notJson := by
    unfold parse
    rw [h]
    rfl
  exact ⟨hp, by unfold ingestLine; rw [hp]⟩

/-- Witness for C9 at a device banner line. -/
theorem notJson_skips_line_witness :
    beginsWithBrace "Solar Tracker booting" = false ∧
    (parse "Solar Tracker booting" none 0 = .notJson ∧
      ingestLine (initialState 0) "Solar Tracker booting" none 0 =
        initialState 0) :=
  ⟨by decide,
   notJson_skips_line (initialState 0) "Solar Tracker booting" none 0
     (by decide)⟩

/-- A JSON object line carrying a single `voltage` field and nothing
else: it is missing every other required telemetry field. -/
def lineMissingFields : String := "\x7b\"voltage\":5\x7d"

/-- Counterexample to claim C1: the handler performs no field
validation, so a JSON object line missing required telemetry fields is
still accepted as a reading — it replaces the latest reading and is
appended to the history, instead of yielding a missing-field error. -/
theorem missing_fields_accepted_cx :
    parse lineMissingFields (some [("voltage", .jnum 5)]) 123 =
      .reading [("voltage", .jnum 5), ("timestamp", .jnum 123)] ∧
    (ingestLine (initialState 0) lineMissingFields
        (some [("voltage", .jnum 5)]) 123).latestReading =
      .jobj [("voltage", .jnum 5), ("timestamp", .jnum 123)] ∧
    (ingestLine (initialState 0) lineMissingFields
        (some [("voltage", .jnum 5)]) 123).history =
      [.jobj [("voltage", .jnum 5), ("timestamp", .jnum 123)]] :=
  ⟨rfl, rfl, rfl⟩

/-- Claim C1 as amended: the handler validates nothing — every decoded
object line without a truthy `status`/`error` value is accepted as a
reading (timestamp stamped in), replaces the latest reading, and is
appended to the history, regardless of which telemetry fields it has. -/
theorem ingest_no_field_validation (s : ServerState) (line : String)
    (fields : List (String × JValue)) (now : ℚ)
    (hb : beginsWithBrace line = true)
    (hm : truthy (jsOr (jsGetD fields "error") (jsGetD fields "status")) =
      false) :
    parse line (some fields) now =
      .reading (setField fields "timestamp" (.jnum now)) ∧
    (ingestLine s line (some fields) now).latestReading =
      .jobj (setField fields "timestamp" (.jnum now)) ∧
    (ingestLine s line (some fields) now).history =
      s.history ++ [.jobj (setField fields "timestamp" (.jnum now))] := by
  have hp : parse line (some fields) now =
      .reading (setField fields "timestamp" (.jnum now)) := by
    unfold parse
    rw [hb]
    simp only [hm]
    rfl
  refine ⟨hp, ?_, ?_⟩ <;> · unfold ingestLine; rw [hp]

/-- Witness for the amended C1 at a one-field object line. -/
theorem ingest_no_field_validation_witness :
    beginsWithBrace "\x7b\"foo\":1\x7d" = true ∧
    truthy (jsOr (jsGetD [("foo", JValue.jnum 1)] "error")
      (jsGetD [("foo", JValue.jnum 1)] "status")) = false ∧
    (parse "\x7b\"foo\":1\x7d" (some [("foo", JValue.jnum 1)]) 7 =
      .reading (setField [("foo", JValue.jnum 1)] "timestamp" (.jnum 7)) ∧
    (ingestLine (initialState 0) "\x7b\"foo\":1\x7d"
        (some [("foo", JValue.jnum 1)]) 7).latestReading =
      .jobj (setField [("foo", JValue.jnum 1)] "timestamp" (.jnum 7)) ∧
    (ingestLine (initialState 0) "\x7b\"foo\":1\x7d"
        (some [("foo", JValue.jnum 1)]) 7).history =
      (initialState 0).history ++
        [.jobj (setField [("foo", JValue.jnum 1)] "timestamp" (.jnum 7))]) :=
  ⟨by decide, by decide,
   ingest_no_field_validation (initialState 0) "\x7b\"foo\":1\x7d"
     [("foo", JValue.jnum 1)] 7 (by decide) (by decide)⟩

/-- A JSON object line whose `status` value is the empty string. -/
def lineFalsyStatus : String := "\x7b\"status\":\"\"\x7d"

/-- Counterexample to claim C5: the handler tests the truthiness of the
`status`/`error` values, not key presence.  An object containing a
`status` key with a falsy value (empty string) and no telemetry fields
is not treated as a device message: it is accepted as a reading and
mutates the state. -/
theorem falsy_status_accepted_cx :
    parse lineFalsyStatus (some [("status", .jstr "")]) 5 =
      .reading [("status", .jstr ""), ("timestamp", .jnum 5)] ∧
    (ingestLine (initialState 0) lineFalsyStatus
        (some [("status", .jstr "")]) 5).latestReading =
      .jobj [("status", .jstr ""), ("timestamp", .jnum 5)] :=
  ⟨rfl, rfl⟩

/-- Claim C5 as amended: a decoded object line whose `error` or
`status` value is truthy is classified as a device message carrying
`data.error || data.status`, and causes no state mutation at all. -/
theorem device_message_skipped (s : ServerState) (line : String)
    (fields : List (String × JValue)) (now : ℚ)
    (hb : beginsWithBrace line = true)
    (hm : truthy (jsOr (jsGetD fields "error") (jsGetD fields "status")) =
      true) :
    parse line (some fields) now =
      .deviceMessage (jsOr (jsGetD fields "error") (jsGetD fields "status")) ∧
    ingestLine s line (some fields) now = s := by
  have hp : parse line (some fields) now =
      .deviceMessage (jsOr (jsGetD fields "error") (jsGetD fields "status")) := by
    unfold parse
    rw [hb]
    simp only [hm]
    rfl
  exact ⟨hp, by unfold ingestLine; rw [hp]⟩

/-- Witness for the amended C5 at the device-ready message. -/
theorem device_message_skipped_witness :
    beginsWithBrace "\x7b\"status\":\"ready\"\x7d" = true ∧
    truthy (jsOr (jsGetD [("status", JValue.jstr "ready")] "error")
      (jsGetD [("status", JValue.jstr "ready")] "status")) = true ∧
    (parse "\x7b\"status\":\"ready\"\x7d"
        (some [("status", JValue.jstr "ready")]) 9 =
      .deviceMessage (jsOr (jsGetD [("status", JValue.jstr "ready")] "error")
        (jsGetD [("status", JValue.jstr "ready")] "status")) ∧
    ingestLine (initialState 0) "\x7b\"status\":\"ready\"\x7d"
        (some [("status", JValue.jstr "ready")]) 9 = initialState 0) :=
  ⟨by decide, by decide,
   device_message_skipped (initialState 0) "\x7b\"status\":\"ready\"\x7d"
     [("status", JValue.jstr "ready")] 9 (by decide) (by decide)⟩

/-- Counterexample to claim C3: at process start no slot is absent.
The reading slot holds a zeroed placeholder object that carries the
telemetry fields (`power`, `voltage`, ...), and `getLive` returns that
placeholder reading — not an explicit "no data yet" result; the
prediction slot likewise starts as a concrete zero forecast. -/
theorem startup_placeholder_cx :
    getLive (initialState 0) = .jobj (initialReadingFields 0) ∧
    jsGet (initialReadingFields 0) "power" = some (.jnum 0) ∧
    jsGet (initialReadingFields 0) "voltage" = some (.jnum 0) ∧
    (initialState 0).predictionCache.predicted_power = 0 ∧
    (initialState 0).predictionCache.forecast = [] :=
  ⟨rfl, rfl, rfl, rfl, rfl⟩

/-- Claim C3 as amended: at process start the three slots hold concrete
placeholder values — a zeroed reading object stamped with the load
time, an empty weather object, and a zero forecast — and `getLive`
before the first accepted reading returns the placeholder reading. -/
theorem startup_placeholders (t0 : ℚ) :
    getLive (initialState t0) = .jobj
      [("voltage", .jnum 0), ("current", .jnum 0), ("power", .jnum 0),
       ("angleH", .jnum 90), ("angleV", .jnum 90), ("light", .jnum 0),
       ("dustAlert", .jbool false), ("dustRaw", .jnum 0),
       ("timestamp", .jnum t0)] ∧
    getWeather (initialState t0) =
      { temp := none, humidity := none, clouds := none, description := none,
        windSpeed := none, timestamp := none } ∧
    (initialState t0).predictionCache =
      { predicted_power := 0, confidence := 0, peak_hour := none,
        forecast := [], timestamp := none } ∧
    (initialState t0).history = [] :=
  ⟨rfl, rfl, rfl, rfl⟩

/-- A field list holds a number under `k`. -/
def isNumV : Option JValue → Bool
  | some (.jnum _) => true
  | _ => false

/-- A field list holds a boolean under `k`. -/
def isBoolV : Option JValue → Bool
  | some (.jbool _) => true
  | _ => false

/-- A well-formed telemetry line per the device protocol: the seven
numeric fields and the boolean dust flag are present with the right
types, and the out-of-band `status`/`error` keys and the server-side
`timestamp` are absent. -/
def wellFormedTelemetry (fields : List (String × JValue)) : Bool :=
  isNumV (jsGet fields "voltage") && isNumV (jsGet fields "current") &&
  isNumV (jsGet fields "power") && isNumV (jsGet fields "angleH") &&
  isNumV (jsGet fields "angleV") && isNumV (jsGet fields "light") &&
  isBoolV (jsGet fields "dustAlert") && isNumV (jsGet fields "dustRaw") &&
  (jsGet fields "error").isNone && (jsGet fields "status").isNone &&
  (jsGet fields "timestamp").isNone

theorem jsGetD_of_isNone (fields : List (String × JValue)) (k : String)
    (h : (jsGet fields k).isNone = true) : jsGetD fields k = .jnull := by
  unfold jsGetD
  rw [Option.isNone_iff_eq_none] at h
  rw [h]
  rfl

/-- Claim C7: a well-formed telemetry line is accepted as a reading;
every telemetry field of the stored reading equals the value in the
input line, and its timestamp is the ingestion-side invocation time,
never a value taken from the input (the input has none, and the
stamped field is appended by the handler). -/
theorem wellformed_line_preserved (line : String)
    (fields : List (String × JValue)) (now : ℚ)
    (hb : beginsWithBrace line = true)
    (hw : wellFormedTelemetry fields = true) :
    parse line (some fields) now =
      .reading (fields ++ [("timestamp", .jnum now)]) ∧
    jsGet (fields ++ [("timestamp", .jnum now)]) "voltage" =
      jsGet fields "voltage" ∧
    jsGet (fields ++ [("timestamp", .jnum now)]) "current" =
      jsGet fields "current" ∧
    jsGet (fields ++ [("timestamp", .jnum now)]) "power" =
      jsGet fields "power" ∧
    jsGet (fields ++ [("timestamp", .jnum now)]) "angleH" =
      jsGet fields "angleH" ∧
    jsGet (fields ++ [("timestamp", .jnum now)]) "angleV" =
      jsGet fields "angleV" ∧
    jsGet (fields ++ [("timestamp", .jnum now)]) "light" =
      jsGet fields "light" ∧
    jsGet (fields ++ [("timestamp", .jnum now)]) "dustAlert" =
      jsGet fields "dustAlert" ∧
    jsGet (fields ++ [("timestamp", .jnum now)]) "dustRaw" =
      jsGet fields "dustRaw" ∧
    jsGet (fields ++ [("timestamp", .jnum now)]) "timestamp" =
      some (.jnum now) := by
  simp only [wellFormedTelemetry, Bool.and_eq_true] at hw
  obtain ⟨⟨⟨⟨⟨⟨⟨⟨⟨⟨_, _⟩, _⟩, _⟩, _⟩, _⟩, _⟩, _⟩, herr⟩, hst⟩, hts⟩ := hw
  have hmsg : truthy (jsOr (jsGetD fields "error") (jsGetD fields "status")) =
      false := by
    rw [jsGetD_of_isNone fields "error" herr,
      jsGetD_of_isNone fields "status" hst]
    rfl
  have htsn : jsGet fields "timestamp" = none :=
    Option.isNone_iff_eq_none.mp hts
  have hset : setField fields "timestamp" (.jnum now) =
      fields ++ [("timestamp", .jnum now)] :=
    setField_of_absent fields "timestamp" (.jnum now) htsn
  have hp : parse line (some fields) now =
      .reading (fields ++ [("timestamp", .jnum now)]) := by
    unfold parse
    rw [hb]
    simp only [hmsg]
    rw [hset]
    simp
  refine ⟨hp, ?_, ?_, ?_, ?_, ?_, ?_, ?_, ?_, ?_⟩
  · exact jsGet_append_ne fields "timestamp" "voltage" _ (by decide)
  · exact jsGet_append_ne fields "timestamp" "current" _ (by decide)
  · exact jsGet_append_ne fields "timestamp" "power" _ (by decide)
  · exact jsGet_append_ne fields "timestamp" "angleH" _ (by decide)
  · exact jsGet_append_ne fields "timestamp" "angleV" _ (by decide)
  · exact jsGet_append_ne fields "timestamp" "light" _ (by decide)
  · exact jsGet_append_ne fields "timestamp" "dustAlert" _ (by decide)
  · exact jsGet_append_ne fields "timestamp" "dustRaw" _ (by decide)
  · exact jsGet_append_self fields "timestamp" _ htsn

/-- The sample telemetry line of the end-to-end scenario. -/
def sampleFields : List (String × JValue) :=
  [("voltage", .jnum 5), ("current", .jnum 1000), ("power", .jnum 5),
   ("angleH", .jnum 90), ("angleV", .jnum 90), ("light", .jnum 50),
   ("dustAlert", .jbool false), ("dustRaw", .jnum 700)]

/-- Witness for C7 at the sample telemetry line. -/
theorem wellformed_line_preserved_witness :
    beginsWithBrace "\x7b\"voltage\":5.0\x7d etc" = true ∧
    wellFormedTelemetry sampleFields = true ∧
    (parse "\x7b\"voltage\":5.0\x7d etc" (some sampleFields) 42 =
      .reading (sampleFields ++ [("timestamp", .jnum 42)]) ∧
    jsGet (sampleFields ++ [("timestamp", .jnum 42)]) "voltage" =
      jsGet sampleFields "voltage" ∧
    jsGet (sampleFields ++ [("timestamp", .jnum 42)]) "current" =
      jsGet sampleFields "current" ∧
    jsGet (sampleFields ++ [("timestamp", .jnum 42)]) "power" =
      jsGet sampleFields "power" ∧
    jsGet (sampleFields ++ [("timestamp", .jnum 42)]) "angleH" =
      jsGet sampleFields "angleH" ∧
    jsGet (sampleFields ++ [("timestamp", .jnum 42)]) "angleV" =
      jsGet sampleFields "angleV" ∧
    jsGet (sampleFields ++ [("timestamp", .jnum 42)]) "light" =
      jsGet sampleFields "light" ∧
    jsGet (sampleFields ++ [("timestamp", .jnum 42)]) "dustAlert" =
      jsGet sampleFields "dustAlert" ∧
    jsGet (sampleFields ++ [("timestamp", .jnum 42)]) "dustRaw" =
      jsGet sampleFields "dustRaw" ∧
    jsGet (sampleFields ++ [("timestamp", .jnum 42)]) "timestamp" =
      some (.jnum 42)) :=
  ⟨by decide, by decide,
   wellformed_line_preserved "\x7b\"voltage\":5.0\x7d etc" sampleFields 42
     (by decide) (by decide)⟩

/-! ### Claims about the weather refresher -/

/-- Claim C6: a failing weather fetch — a network error or non-success
status (axios raises, `resp` is an error) or a payload malformed enough
that building the snapshot throws — leaves the whole state, and in
particular the previously stored weather snapshot, unchanged; the
handler returns normally (it is a total function here), so nothing
propagates to the scheduler. -/
theorem weather_failure_keeps_snapshot (resp : Except String WResp)
    (s : ServerState) (now : ℚ)
    (h : ∀ d, resp = Except.ok d → buildSnapshot d now = none) :
    fetchWeather resp s now = s ∧
    getWeather (fetchWeather resp s now) = getWeather s := by
  have he : fetchWeather resp s now = s := by
    cases resp with
    | error e => rfl
    | ok d => simp [fetchWeather, h d rfl]
  exact ⟨he, by rw [he]⟩

/-- Witness for C6 at a timed-out request against the initial state. -/
theorem weather_failure_keeps_snapshot_witness :
    fetchWeather (.error "ETIMEDOUT") (initialState 0) 99 = initialState 0 ∧
    getWeather (fetchWeather (.error "ETIMEDOUT") (initialState 0) 99) =
      getWeather (initialState 0) :=
  weather_failure_keeps_snapshot (.error "ETIMEDOUT") (initialState 0) 99
    (fun _ hd => Except.noConfusion hd)

/-! ### Claims about the history endpoint -/

/-- Claim C8: for every positive limit and every history contents, the
history read returns at most `limit` entries, sorted non-decreasingly
by their `timestamp` field. -/
theorem getHistory_length_sorted (hist : List JValue) (limit : ℕ)
    (hpos : 0 < limit) :
    (getHistory hist limit).length ≤ limit ∧
    List.Sorted tsLe (getHistory hist limit) := by
  constructor
  · simp only [getHistory, sinkQuery, List.length_insertionSort,
      List.length_drop]
    omega
  · unfold getHistory
    exact List.sorted_insertionSort tsLe _

/-- Witness for C8: two out-of-order entries, limit 1. -/
theorem getHistory_length_sorted_witness :
    0 < 1 ∧
    ((getHistory [.jobj [("timestamp", .jnum 2)],
        .jobj [("timestamp", .jnum 1)]] 1).length ≤ 1 ∧
      List.Sorted tsLe (getHistory [.jobj [("timestamp", .jnum 2)],
        .jobj [("timestamp", .jnum 1)]] 1)) :=
  ⟨by decide,
   getHistory_length_sorted
     [.jobj [("timestamp", .jnum 2)], .jobj [("timestamp", .jnum 1)]] 1
     (by decide)⟩

/-- Counterexample to claim C4: there is no cap.  A caller-supplied
limit of 1000000 is applied as-is — far beyond any sane cap — and the
endpoint serves the full matching history under it. -/
theorem history_limit_uncapped_cx :
    appliedLimit (some "1000000") = 1000000 ∧
    historyEndpoint
      [.jobj [("power", .jnum 1), ("timestamp", .jnum 1)],
       .jobj [("power", .jnum 2), ("timestamp", .jnum 2)],
       .jobj [("power", .jnum 3), ("timestamp", .jnum 3)]]
      (some "1000000") =
      .ok [.jobj [("power", .jnum 1), ("timestamp", .jnum 1)],
           .jobj [("power", .jnum 2), ("timestamp", .jnum 2)],
           .jobj [("power", .jnum 3), ("timestamp", .jnum 3)]] :=
  ⟨rfl, rfl⟩

/-- Claim C4 as amended: the limit defaults to 50 when the query
parameter is absent (and when it is unparsable or parses to 0), and any
parsed nonzero limit is applied exactly as given — there is no upper
cap. -/
theorem history_limit_default_nocap (s : String) (n : ℤ)
    (hparse : jsParseInt s = some n) (hn : n ≠ 0) :
    appliedLimit none = 50 ∧ appliedLimit (some s) = n := by
  refine ⟨rfl, ?_⟩
  simp only [appliedLimit]
  rw [hparse]
  simp [hn]

/-- Witness for the amended C4 at the string "123456". -/
theorem history_limit_default_nocap_witness :
    jsParseInt "123456" = some 123456 ∧ (123456 : ℤ) ≠ 0 ∧
    (appliedLimit none = 50 ∧ appliedLimit (some "123456") = 123456) :=
  ⟨by decide, by decide,
   history_limit_default_nocap "123456" 123456 (by decide) (by decide)⟩

/-! ### Claims about the forecast engine -/

theorem runPrediction_forecast_getD (b c : ℚ) (h : ℕ) (now : ℚ) (j : ℕ)
    (hj : j < 6) :
    (runPrediction b c h now).forecast.getD j default =
      { hour := (h + (j + 1)) % 24,
        label := toString ((h + (j + 1)) % 24) ++ ":00",
        predicted := max 0 (round3
          (b * hourlyFactor.getD ((h + (j + 1)) % 24) 0 *
            cloudFactor c * 1.1)) } := by
  interval_cases j <;> rfl

theorem runPrediction_predicted_power (b c : ℚ) (h : ℕ) (now : ℚ) :
    (runPrediction b c h now).predicted_power =
      max 0 (round3 (b * hourlyFactor.getD ((h + 1) % 24) 0 *
        cloudFactor c)) := rfl

theorem runPrediction_confidence (b c : ℚ) (h : ℕ) (now : ℚ) :
    (runPrediction b c h now).confidence = round (cloudFactor c * 90) := rfl

theorem hourlyFactor_getD_nonneg (n : ℕ) : 0 ≤ hourlyFactor.getD n 0 := by
  by_cases hn : n < 24
  · interval_cases n <;> norm_num [hourlyFactor]
  · rw [List.getD_eq_default _ _ (Nat.le_of_not_lt hn)]

theorem cloudFactor_nonneg (c : ℚ) (hc1 : c ≤ 100) : 0 ≤ cloudFactor c := by
  unfold cloudFactor
  nlinarith

theorem round3_nonneg (x : ℚ) (hx : 0 ≤ x) : 0 ≤ round3 x := by
  unfold round3
  apply div_nonneg _ (by norm_num)
  have h0 : (0 : ℤ) ≤ round (x * 1000) := by
    rw [round_eq]
    apply Int.le_floor.mpr
    push_cast
    nlinarith
  exact_mod_cast h0

theorem max0_round3 (x : ℚ) (hx : 0 ≤ x) :
    max 0 (round3 x) = round3 (max 0 x) := by
  rw [max_eq_right hx, max_eq_right (round3_nonneg x hx)]

/-- Claim C2: for base power `b ≥ 0`, cloud cover `c ∈ [0,100]` and hour
`h ∈ [0,23]`, the forecast entry for offset `i ∈ [1,6]` is
`b * shape[(h+i) mod 24] * cloudFactor * 1.1`, clamped to `≥ 0` and
rounded to three decimals, and covers hour `(h+i) mod 24`; the headline
`predicted_power` is the same formula for offset 1 without the 1.1
boost; and concretely with `b=10`, `c=0`, `h=11` the headline power is
10 and the confidence is 90. -/
theorem forecast_formula (b c : ℚ) (h i : ℕ) (now : ℚ)
    (hb : 0 ≤ b) (hc0 : 0 ≤ c) (hc1 : c ≤ 100) (hh : h < 24)
    (hi1 : 1 ≤ i) (hi6 : i ≤ 6) :
    ((runPrediction b c h now).forecast.getD (i - 1) default).predicted =
      round3 (max 0 (b * hourlyFactor.getD ((h + i) % 24) 0 *
        cloudFactor c * 1.1)) ∧
    ((runPrediction b c h now).forecast.getD (i - 1) default).hour =
      (h + i) % 24 ∧
    (runPrediction b c h now).predicted_power =
      round3 (max 0 (b * hourlyFactor.getD ((h + 1) % 24) 0 *
        cloudFactor c)) ∧
    (runPrediction 10 0 11 now).predicted_power = 10 ∧
    (runPrediction 10 0 11 now).confidence = 90 := by
  have hcf : 0 ≤ cloudFactor c := cloudFactor_nonneg c hc1
  obtain ⟨j, rfl⟩ : ∃ j, i = j + 1 := ⟨i - 1, by omega⟩
  have hj : j < 6 := by omega
  simp only [Nat.add_sub_cancel]
  rw [runPrediction_forecast_getD b c h now j hj]
  refine ⟨?_, rfl, ?_, ?_, ?_⟩
  · have hx : 0 ≤ b * hourlyFactor.getD ((h + (j + 1)) % 24) 0 *
        cloudFactor c * 1.1 := by
      have h11 : (0 : ℚ) ≤ 1.1 := by norm_num
      exact mul_nonneg
        (mul_nonneg (mul_nonneg hb (hourlyFactor_getD_nonneg _)) hcf) h11
    rw [max0_round3 _ hx]
  · rw [runPrediction_predicted_power]
    have hx : 0 ≤ b * hourlyFactor.getD ((h + 1) % 24) 0 * cloudFactor c :=
      mul_nonneg (mul_nonneg hb (hourlyFactor_getD_nonneg _)) hcf
    rw [max0_round3 _ hx]
  · rw [runPrediction_predicted_power]
    rw [show hourlyFactor.getD ((11 + 1) % 24) 0 = 1 from by
      norm_num [hourlyFactor]]
    rw [round3, round_eq]
    norm_num [cloudFactor]
  · rw [runPrediction_confidence, round_eq]
    norm_num [cloudFactor]

/-- Witness for C2 at `b=10`, `c=0`, `h=11`, offset 1. -/
theorem forecast_formula_witness :
    (0 : ℚ) ≤ 10 ∧ (0 : ℚ) ≤ 0 ∧ (0 : ℚ) ≤ 100 ∧ 11 < 24 ∧ 1 ≤ 1 ∧ 1 ≤ 6 ∧
    (((runPrediction 10 0 11 0).forecast.getD (1 - 1) default).predicted =
      round3 (max 0 ((10 : ℚ) * hourlyFactor.getD ((11 + 1) % 24) 0 *
        cloudFactor 0 * 1.1)) ∧
    ((runPrediction 10 0 11 0).forecast.getD (1 - 1) default).hour =
      (11 + 1) % 24 ∧
    (runPrediction 10 0 11 0).predicted_power =
      round3 (max 0 ((10 : ℚ) * hourlyFactor.getD ((11 + 1) % 24) 0 *
        cloudFactor 0)) ∧
    (runPrediction 10 0 11 0).predicted_power = 10 ∧
    (runPrediction 10 0 11 0).confidence = 90) :=
  ⟨by decide, by decide, by decide, by decide, by decide, by decide,
   forecast_formula 10 0 11 1 0 (by decide) (by decide) (by decide)
     (by decide) (by decide) (by decide)⟩

/-- Claim C10: for every cloud cover `c ∈ [0,100]`, and whatever the
latest reading's power, the confidence `round(cloudFactor · 90)` lies
in `[27, 90]`. -/
theorem confidence_bounds (b c : ℚ) (h : ℕ) (now : ℚ)
    (hc0 : 0 ≤ c) (hc1 : c ≤ 100) :
    27 ≤ (runPrediction b c h now).confidence ∧
    (runPrediction b c h now).confidence ≤ 90 := by
  rw [runPrediction_confidence, round_eq]
  have h1 : (27 : ℚ) ≤ cloudFactor c * 90 := by
    unfold cloudFactor
    nlinarith
  have h2 : cloudFactor c * 90 ≤ 90 := by
    unfold cloudFactor
    nlinarith
  constructor
  · exact Int.le_floor.mpr (by push_cast; linarith)
  · have hlt : ⌊cloudFactor c * 90 + 1/2⌋ < 91 :=
      Int.floor_lt.mpr (by push_cast; linarith)
    omega

/-- Witness for C10 at half cloud cover. -/
theorem confidence_bounds_witness :
    (0 : ℚ) ≤ 50 ∧ (50 : ℚ) ≤ 100 ∧
    (27 ≤ (runPrediction 0 50 0 0).confidence ∧
      (runPrediction 0 50 0 0).confidence ≤ 90) :=
  ⟨by decide, by decide,
   confidence_bounds 0 50 0 0 (by decide) (by decide)⟩

end PhotonIQ
